import Mathlib

/-!
Shallow embedding of `src/index.js`, a Cloudflare Worker that proxies
GET/HEAD requests to a Backblaze B2 (S3-compatible) endpoint.

Modelling conventions:
* The header names and path strings handled by the worker are ASCII, and the
  JS string operations it uses (`toLowerCase`, `startsWith`, `split`,
  anchored `replace`) act per character.  We model them executably on
  `String.data` (`strToLower`, `strStartsWith`, ...); `strToLower_eq_toLower`
  ties `strToLower` to the library `String.toLower`.
* A JS `Headers` object is modelled as a `List (String × String)`;
  constructing a `Headers` from raw client pairs lowercases every name
  (`mkHeaders`), and `has`/`get`-style lookups compare names
  case-insensitively, matching the WHATWG `Headers` behaviour the code relies
  on.  We keep the entry order of insertion and do not model the
  (semantically irrelevant) sorted iteration order of real `Headers` objects.
* `fetch` is modelled by an oracle `upstream : Nat → Response` giving the
  response to the n-th upstream fetch attempt of one incoming request.
* The external signer (`aws4fetch`, an external collaborator per the design)
  is modelled by `signRequest`, which records the url, the forced method and
  the filtered headers it was given; the extra authentication headers it adds
  (`authorization`, `x-amz-date`, ...) are not modelled — none of them is
  named `range`, so `signedRequest.headers.has("range")` coincides with the
  filtered headers containing `range`.
* The handler returns, besides the `Response`, the list of sign invocations,
  the list of fetch invocations (the url/method/headers triple passed to
  `fetch`) and the diagnostic log events, so that the observable side effects
  of `fetch` (lines 94-259 of `src/index.js`) can be stated.
-/

/-- String constant: the literal `"GET"`. -/
def GET_METHOD : String := "GET"

/-- String constant: the literal `"HEAD"`. -/
def HEAD_METHOD : String := "HEAD"

/-- The allowed incoming methods, `['GET', 'HEAD']` (line 96). -/
def ALLOWED_METHODS : List String := [GET_METHOD, HEAD_METHOD]

/-- String constant: the bucket mode literal `"$path"`. -/
def PATH_MODE : String := "$path"

/-- String constant: the bucket mode literal `"$host"`. -/
def HOST_MODE : String := "$host"

/-- String constant: the literal `"true"` used for env flag comparison. -/
def TRUE_LITERAL : String := "true"

/-- String constant: the header name `"range"`. -/
def RANGE_NAME : String := "range"

/-- String constant: the header name `"content-range"`. -/
def CONTENT_RANGE : String := "content-range"

/-- String constant: the header name `"Cache-Control"` (line 71). -/
def CACHE_CONTROL : String := "Cache-Control"

/-- String constant: the header name prefix `"cf-"` (line 42). -/
def CF_DASH : String := "cf-"

/-- String constant: the literal `"/"`. -/
def SLASH : String := "/"

/-- Character constant: the slash character. -/
def SLASH_CHAR : Char := '/'

/-- Character constant: the dot character. -/
def DOT_CHAR : Char := '.'

/-- String constant: the literal `"."`. -/
def DOT : String := "."

/-- String constant: the literal `"file/"` (lines 162 and 165). -/
def FILE_SLASH : String := "file/"

/-- String constant: the literal `"file"`. -/
def FILE_WORD : String := "file"

/-- String constant: the empty string. -/
def EMPTY_STRING : String := ""

/-- `UNSIGNABLE_HEADERS` from lines 8-23 of `src/index.js`. -/
def UNSIGNABLE_HEADERS : List String :=
  ["x-forwarded-proto",
   "x-real-ip",
   "accept-encoding",
   "if-match",
   "if-modified-since",
   "if-none-match",
   "if-range",
   "if-unmodified-since"]

/-- `HTTPS_PROTOCOL` from line 26. -/
def HTTPS_PROTOCOL : String := "https:"

/-- `HTTPS_PORT` from line 27. -/
def HTTPS_PORT : String := "443"

/-- `RANGE_RETRY_ATTEMPTS` from line 30. -/
def RANGE_RETRY_ATTEMPTS : Nat := 3

/-- `BROWSER_CACHE_TTL_SECONDS` from line 33 (30 days). -/
def BROWSER_CACHE_TTL_SECONDS : Nat := 2592000

/-- JS `s.toLowerCase()` on ASCII strings, per character over the string's
character list (equal to the library `String.toLower`, see
`strToLower_eq_toLower`). -/
def strToLower (s : String) : String :=
  String.mk (s.data.map Char.toLower)

/-- JS `s.startsWith(pre)`: per-character prefix test. -/
def strStartsWith (s pre : String) : Bool :=
  pre.data.isPrefixOf (s.data)

/-- JS-style suffix test (for the anchored `replace(/\/$/, '')`). -/
def strEndsWith (s suf : String) : Bool :=
  suf.data.isSuffixOf (s.data)

/-- Drop the first `n` characters of a string. -/
def strDrop (s : String) (n : Nat) : String :=
  String.mk (s.data.drop n)

/-- Drop the last `n` characters of a string. -/
def strDropRight (s : String) (n : Nat) : String :=
  String.mk (s.data.take (s.data.length - n))

/-- Split a character list at every occurrence of `c` (auxiliary for
`strSplitChar`); `acc` is the current segment, reversed. -/
def splitCharAux (c : Char) : List Char → List Char → List (List Char)
  | [], acc => [acc.reverse]
  | x :: xs, acc =>
      if x == c then acc.reverse :: splitCharAux c xs []
      else splitCharAux c xs (x :: acc)

/-- JS `s.split(sep)` for a one-character separator (the code only splits on
`'/'` and `'.'`).  `"".split('/')` gives `[""]`, `"a/".split('/')` gives
`["a", ""]`, as in JS. -/
def strSplitChar (s : String) (c : Char) : List String :=
  (splitCharAux c (s.data) []).map String.mk

/-- A JS `Response`: status, status text, header entries and an optional body.
`body := none` models a null body. -/
structure Response where
  status : Nat
  statusText : String
  headers : List (String × String)
  body : Option String
deriving Repr, DecidableEq

/-- `Response.ok` in JS: status in the inclusive range 200-299. -/
def responseOk (r : Response) : Bool :=
  200 ≤ r.status && r.status ≤ 299

/-- Constructing a JS `Headers` object from name/value pairs lowercases each
header name. -/
def mkHeaders (hs : List (String × String)) : List (String × String) :=
  hs.map (fun p => (strToLower p.1, p.2))

/-- `headers.has(name)`: case-insensitive presence test. -/
def headersHas (hs : List (String × String)) (name : String) : Bool :=
  hs.any (fun p => strToLower p.1 == strToLower name)

/-- All values stored under a header name (case-insensitive), in order. -/
def headerValues (hs : List (String × String)) (name : String) : List String :=
  (hs.filter (fun p => strToLower p.1 == strToLower name)).map (fun p => p.2)

/-- Core of `headers.set(name, value)` once the name has been lowercased to
`ln`: replace the first entry with that name, drop the other entries with
that name, or append at the end when the name is absent. -/
def setFirst (ln v : String) : List (String × String) → List (String × String)
  | [] => [(ln, v)]
  | p :: rest =>
      if strToLower p.1 == ln then
        (ln, v) :: rest.filter (fun q => !(strToLower q.1 == ln))
      else
        p :: setFirst ln v rest

/-- `headers.set(name, value)` of the WHATWG `Headers` interface. -/
def headersSet (hs : List (String × String)) (name v : String) : List (String × String) :=
  setFirst (strToLower name) v hs

/-- The worker's env object (`wrangler` variables).  `none` models an unset
variable; `ALLOWED_HEADERS`, when set, is the configured allow-list of header
names. -/
structure Env where
  BUCKET_NAME : String
  B2_ENDPOINT : String
  B2_APPLICATION_KEY_ID : String
  B2_APPLICATION_KEY : String
  ALLOW_LIST_BUCKET : Option String
  RCLONE_DOWNLOAD : Option String
  ALLOWED_HEADERS : Option (List String)

/-- `String(env[flag]) === "true"`: an unset variable stringifies to
`"undefined"`, which is not `"true"`. -/
def envFlagTrue (v : Option String) : Bool :=
  match v with
  | some s => s == TRUE_LITERAL
  | none => false

/-- The allow-list clause of the filter predicate on line 43:
`'ALLOWED_HEADERS' in env && !env['ALLOWED_HEADERS'].includes(name)`. -/
def allowedDrops (allowed : Option (List String)) (name : String) : Bool :=
  match allowed with
  | some l => !(l.contains name)
  | none => false

/-- `filterHeaders(headers, env)` from lines 36-46: keep exactly the entries
whose name is not in `UNSIGNABLE_HEADERS`, does not start with `cf-`, and is
in the allow-list when one is configured.  The surrounding
`new Headers(...)` reconstruction is `mkHeaders`. -/
def filterHeaders (headers : List (String × String)) (env : Env) : List (String × String) :=
  mkHeaders (headers.filter (fun pair =>
    !(UNSIGNABLE_HEADERS.contains pair.1
      || strStartsWith pair.1 CF_DASH
      || allowedDrops (env.ALLOWED_HEADERS) pair.1)))

/-- The per-name decision of `filterHeaders`: the entry is kept iff its name
is not unsignable, does not start with `cf-`, and is on the allow-list when
one is configured. -/
def keepName (env : Env) (name : String) : Bool :=
  !(UNSIGNABLE_HEADERS.contains name
    || strStartsWith name CF_DASH
    || allowedDrops (env.ALLOWED_HEADERS) name)

/-- `createHeadResponse(response)` from lines 48-57: same status, status text
and headers, but a null body. -/
def createHeadResponse (response : Response) : Response :=
  { status := response.status
    statusText := response.statusText
    headers := response.headers
    body := none }

/-- The `Cache-Control` value built on line 71. -/
def cacheControlValue (cacheTtlSeconds : Nat) : String :=
  "public, max-age=" ++ toString cacheTtlSeconds

/-- `addCacheHeaders(response, cacheTtlSeconds)` from lines 59-80: non-ok
responses pass through untouched; ok responses get `Cache-Control` set
(overwriting any existing value), same status/status text/body. -/
def addCacheHeaders (response : Response) (cacheTtlSeconds : Nat) : Response :=
  if !(responseOk response) then
    response
  else
    { status := response.status
      statusText := response.statusText
      headers := headersSet (response.headers) CACHE_CONTROL (cacheControlValue cacheTtlSeconds)
      body := response.body }

/-- `isListBucketRequest(env, path)` from lines 84-89. -/
def isListBucketRequest (env : Env) (path : String) : Bool :=
  let pathSegments := strSplitChar path SLASH_CHAR
  (env.BUCKET_NAME == PATH_MODE && pathSegments.length < 2)
    || (!(env.BUCKET_NAME == PATH_MODE) && path.length == 0)

/-- `path.replace(/^\//, '')` (line 112): drop one leading slash. -/
def stripLeadingSlash (s : String) : String :=
  if strStartsWith s SLASH then strDrop s 1 else s

/-- `path.replace(/\/$/, '')` (line 114): drop one trailing slash. -/
def stripTrailingSlash (s : String) : String :=
  if strEndsWith s SLASH then strDropRight s 1 else s

/-- The normalized path of lines 112-114. -/
def normalizePath (pathname : String) : String :=
  stripTrailingSlash (stripLeadingSlash pathname)

/-- `path.replace(/^file\//, "")` (line 162): drop a leading `file/`. -/
def stripFileSeg (p : String) : String :=
  if strStartsWith p FILE_SLASH then strDrop p 5 else p

/-- Scan for the slash closing the `[^/]+` bucket segment; `some tail` when a
slash is found, with `tail` the characters after it (auxiliary for
`stripFileBucketSeg`). -/
def afterBucketSeg : List Char → Option (List Char)
  | [] => none
  | c :: cs => if c == SLASH_CHAR then some cs else afterBucketSeg cs

/-- `path.replace(/^file\/[^/]+\//, "")` (line 165): drop a leading
`file/<segment>/` where the segment is nonempty and slash-free; otherwise the
path is unchanged. -/
def stripFileBucketSeg (p : String) : String :=
  if strStartsWith p FILE_SLASH then
    match (p.data.drop 5 : List Char) with
    | [] => p
    | c :: cs =>
        if c == SLASH_CHAR then p
        else
          match afterBucketSeg (c :: cs) with
          | some tail => String.mk tail
          | none => p
  else p

/-- The hostname computation of the `switch` on lines 129-142. -/
def resolveHostname (env : Env) (incomingHostname : String) : String :=
  if env.BUCKET_NAME == PATH_MODE then
    env.B2_ENDPOINT
  else if env.BUCKET_NAME == HOST_MODE then
    (strSplitChar incomingHostname DOT_CHAR).headD EMPTY_STRING ++ DOT ++ env.B2_ENDPOINT
  else
    env.BUCKET_NAME ++ DOT ++ env.B2_ENDPOINT

/-- WHATWG URL: assigning a relative `pathname` re-adds the leading slash. -/
def ensureLeadingSlash (p : String) : String :=
  if strStartsWith p SLASH then p else SLASH ++ p

/-- Serialization of the rewritten URL (`url.toString()` on line 174); 443 is
the default https port and is omitted by WHATWG URL serialization. -/
def urlToString (hostname pathname : String) : String :=
  HTTPS_PROTOCOL ++ SLASH ++ SLASH ++ hostname ++ ensureLeadingSlash pathname

/-- The signed upstream request: url, (forced) method, and headers. -/
structure SignedRequest where
  url : String
  method : String
  headers : List (String × String)
deriving Repr, DecidableEq

/-- Model of `client.sign(url, {method, headers})` (lines 174-177): the
external aws4fetch collaborator returns a request with the given url, method
and headers (the added authentication headers are not modelled; none of them
is named `range`). -/
def signRequest (url method : String) (headers : List (String × String)) : SignedRequest :=
  { url := url, method := method, headers := headers }

/-- Diagnostic log events of the retry loop (lines 198, 205, 230). -/
inductive LogEvent where
  | retrySucceeded
  | willRetry (remaining : Nat)
  | exhausted
deriving Repr, DecidableEq

/-- Result of the range-retry loop of lines 183-231: the final response, the
final value of the `attempts` counter, the number of `fetch` calls performed,
and the emitted log events. -/
structure LoopState where
  finalResponse : Response
  attempts : Nat
  fetchCount : Nat
  logs : List LogEvent
deriving Repr

/-- The `do..while` loop of lines 188-223.  `idx` is the number of fetch
attempts already made, `attempts` the current value of the `attempts`
variable.  The loop is only ever entered with `attempts = 3 > 0`; the
`attempts = 0` equation is never reached from `rangeRetryController`. -/
def rangeRetryLoop (upstream : Nat → Response) : Nat → Nat → List LogEvent → LoopState
  | idx, 0, logs => { finalResponse := upstream idx, attempts := 0, fetchCount := idx + 1, logs := logs }
  | idx, a + 1, logs =>
      let response := upstream idx
      if headersHas (response.headers) CONTENT_RANGE then
        { finalResponse := response
          attempts := a + 1
          fetchCount := idx + 1
          logs := if a + 1 < RANGE_RETRY_ATTEMPTS then logs ++ [LogEvent.retrySucceeded] else logs }
      else if responseOk response then
        let logs2 := logs ++ [LogEvent.willRetry a]
        if 0 < a then
          rangeRetryLoop upstream (idx + 1) a logs2
        else
          { finalResponse := response, attempts := a, fetchCount := idx + 1, logs := logs2 }
      else
        { finalResponse := response, attempts := a + 1, fetchCount := idx + 1, logs := logs }

/-- Lines 183-231: run the loop starting from `RANGE_RETRY_ATTEMPTS`, then
emit the exhaustion diagnostic of lines 229-231 when the counter reached 0
and the final response still has no `content-range`. -/
def rangeRetryController (upstream : Nat → Response) : LoopState :=
  let s := rangeRetryLoop upstream 0 RANGE_RETRY_ATTEMPTS []
  if s.attempts == 0 && !(headersHas (s.finalResponse.headers) CONTENT_RANGE) then
    { s with logs := s.logs ++ [LogEvent.exhausted] }
  else s

/-- The response shaping shared by lines 233-241 and 249-257: strip the body
for an original HEAD request, then apply the cache headers. -/
def shapeResponse (requestMethod : String) (response : Response) : Response :=
  if requestMethod == HEAD_METHOD then
    addCacheHeaders (createHeadResponse response) BROWSER_CACHE_TTL_SECONDS
  else
    addCacheHeaders response BROWSER_CACHE_TTL_SECONDS

/-- An incoming request: method, URL host and path, raw header pairs. -/
structure Request where
  method : String
  hostname : String
  pathname : String
  headers : List (String × String)

/-- Everything observable about one run of the handler: the response sent to
the client, the sign invocations, the url/method/headers triples passed to
`fetch`, and the diagnostic log events. -/
structure HandlerResult where
  response : Response
  signCalls : List SignedRequest
  fetchCalls : List SignedRequest
  logs : List LogEvent

/-- The 405 response of lines 96-101. -/
def methodNotAllowedResponse : Response :=
  { status := 405, statusText := "Method Not Allowed", headers := [], body := none }

/-- The 404 response of lines 117-122. -/
def notFoundResponse : Response :=
  { status := 404, statusText := "Not Found", headers := [], body := none }

/-- The `fetch(request, env)` handler of lines 94-259 of `src/index.js`,
against the upstream oracle. -/
def handleFetch (request : Request) (env : Env) (upstream : Nat → Response) : HandlerResult :=
  if !(ALLOWED_METHODS.contains (request.method)) then
    { response := methodNotAllowedResponse, signCalls := [], fetchCalls := [], logs := [] }
  else
    let path := normalizePath (request.pathname)
    if isListBucketRequest env path && !(envFlagTrue (env.ALLOW_LIST_BUCKET)) then
      { response := notFoundResponse, signCalls := [], fetchCalls := [], logs := [] }
    else
      let rcloneDownload := envFlagTrue (env.RCLONE_DOWNLOAD)
      let hostname := resolveHostname env (request.hostname)
      let headers := filterHeaders (mkHeaders (request.headers)) env
      let requestMethod := request.method
      let upstreamPathname :=
        if rcloneDownload then
          if env.BUCKET_NAME == PATH_MODE then stripFileSeg path else stripFileBucketSeg path
        else request.pathname
      let signedRequest := signRequest (urlToString hostname upstreamPathname) GET_METHOD headers
      if headersHas (signedRequest.headers) RANGE_NAME then
        let s := rangeRetryController upstream
        { response := shapeResponse requestMethod (s.finalResponse)
          signCalls := [signedRequest]
          fetchCalls := List.replicate (s.fetchCount) signedRequest
          logs := s.logs }
      else
        let response := upstream 0
        { response := shapeResponse requestMethod response
          signCalls := [signedRequest]
          fetchCalls := [signedRequest]
          logs := [] }

/-! ### Concrete sample data used by the closed witness theorems -/

/-- A `$path`-mode configuration with listing disabled, rclone rewrite off,
and no allow-list. -/
def sampleEnv : Env :=
  { BUCKET_NAME := PATH_MODE
    B2_ENDPOINT := "s3.us-west-004.backblazeb2.com"
    B2_APPLICATION_KEY_ID := "004abcdefgh0000000001"
    B2_APPLICATION_KEY := "K004secret"
    ALLOW_LIST_BUCKET := none
    RCLONE_DOWNLOAD := none
    ALLOWED_HEADERS := none }

/-- `sampleEnv` with the rclone download-URL rewrite enabled. -/
def rcloneEnv : Env :=
  { sampleEnv with RCLONE_DOWNLOAD := some TRUE_LITERAL }

/-- A 200 response without `content-range` (the whole object). -/
def fullResponse : Response :=
  { status := 200
    statusText := "OK"
    headers := [("content-length", "1000")]
    body := some "entire-object" }

/-- A 206 response carrying `content-range`. -/
def partialResponse : Response :=
  { status := 206
    statusText := "Partial Content"
    headers := [("content-range", "bytes 0-9/1000")]
    body := some "first-ten" }

/-- A 403 response without `content-range`. -/
def forbiddenResponse : Response :=
  { status := 403
    statusText := "Forbidden"
    headers := [("x-reason", "bad-signature")]
    body := some "denied" }

/-- Upstream that ignores the byte range on every attempt. -/
def alwaysFullUpstream : Nat → Response := fun _ => fullResponse

/-- Upstream that honours the byte range on every attempt. -/
def alwaysPartialUpstream : Nat → Response := fun _ => partialResponse

/-- Upstream that ignores the byte range once, then honours it. -/
def secondPartialUpstream : Nat → Response :=
  fun n => if n == 0 then fullResponse else partialResponse

/-- Upstream that ignores the byte range twice, then honours it. -/
def thirdPartialUpstream : Nat → Response :=
  fun n => if n < 2 then fullResponse else partialResponse

/-- Upstream that rejects every attempt with a 403. -/
def alwaysForbiddenUpstream : Nat → Response := fun _ => forbiddenResponse

/-- Upstream that ignores the byte range once, then rejects with a 403. -/
def secondForbiddenUpstream : Nat → Response :=
  fun n => if n == 0 then fullResponse else forbiddenResponse

/-- Upstream that ignores the byte range twice, then rejects with a 403. -/
def thirdForbiddenUpstream : Nat → Response :=
  fun n => if n < 2 then fullResponse else forbiddenResponse

/-- A ranged GET request for an object in a bucket. -/
def rangeGetRequest : Request :=
  { method := GET_METHOD
    hostname := "media.example.com"
    pathname := "/my-bucket/videos/clip.mp4"
    headers := [("Range", "bytes=0-9"), ("Accept", "video/mp4")] }

/-- A ranged HEAD request for an object in a bucket. -/
def headRequest : Request :=
  { method := HEAD_METHOD
    hostname := "media.example.com"
    pathname := "/my-bucket/videos/clip.mp4"
    headers := [("Range", "bytes=0-499")] }

/-- A POST request (disallowed method). -/
def postRequest : Request :=
  { method := "POST"
    hostname := "media.example.com"
    pathname := "/my-bucket/videos/clip.mp4"
    headers := [] }

/-- A GET request for the bucket root. -/
def rootRequest : Request :=
  { method := GET_METHOD
    hostname := "media.example.com"
    pathname := "/"
    headers := [] }

/-- A GET request whose normalized path is exactly `file`. -/
def fileWordRequest : Request :=
  { method := GET_METHOD
    hostname := "media.example.com"
    pathname := "/file"
    headers := [] }

/-- A GET request whose normalized path is `file/`, which the rclone rewrite
turns into the empty path. -/
def fileSlashRequest : Request :=
  { method := GET_METHOD
    hostname := "media.example.com"
    pathname := "/file//"
    headers := [] }

/-- Raw client headers exercising every rule of the header filter. -/
def sampleClientHeaders : List (String × String) :=
  [("Range", "bytes=0-9"),
   ("CF-Connecting-IP", "203.0.113.9"),
   ("If-Match", "etag-1"),
   ("Accept-Encoding", "gzip, br"),
   ("X-Custom", "kept")]

/-! ### Helper lemmas about the string and header primitives -/

/-- Packing a valid code point and reading it back is the identity. -/
theorem toNat_ofNat_of_isValidChar {n : Nat} (h : n.isValidChar) : (Char.ofNat n).toNat = n := by
  rw [Char.ofNat, dif_pos h]
  simp [Char.ofNatAux, Char.toNat, UInt32.toNat, BitVec.toNat_ofNatLt]

/-- Characters outside the uppercase ASCII range are fixed by `Char.toLower`. -/
theorem char_toLower_eq_self {c : Char} (h : ¬(65 ≤ c.toNat ∧ c.toNat ≤ 90)) : Char.toLower c = c := by
  simp only [Char.toLower]
  rw [if_neg]
  exact h

/-- Lowercasing an uppercase ASCII letter adds 32 to its code point. -/
theorem char_toLower_toNat_of_upper {c : Char} (h : 65 ≤ c.toNat ∧ c.toNat ≤ 90) :
    (Char.toLower c).toNat = c.toNat + 32 := by
  simp only [Char.toLower]
  rw [if_pos h]
  exact toNat_ofNat_of_isValidChar (Or.inl (by omega))

/-- `Char.toLower` is idempotent. -/
theorem char_toLower_idem (c : Char) : Char.toLower (Char.toLower c) = Char.toLower c := by
  by_cases h : 65 ≤ c.toNat ∧ c.toNat ≤ 90
  · have h2 := char_toLower_toNat_of_upper h
    have h3 : ¬(65 ≤ (Char.toLower c).toNat ∧ (Char.toLower c).toNat ≤ 90) := by omega
    exact char_toLower_eq_self h3
  · have h1 := char_toLower_eq_self h
    rw [h1]
    exact h1

/-- `strToLower` agrees with the library `String.toLower`. -/
theorem strToLower_eq_toLower (s : String) : strToLower s = s.toLower := by
  rw [String.toLower, String.map_eq]
  rfl

/-- `strToLower` is idempotent. -/
theorem strToLower_idem (s : String) : strToLower (strToLower s) = strToLower s := by
  unfold strToLower
  apply congrArg
  rw [List.map_map]
  apply List.map_congr_left
  intro a _
  exact char_toLower_idem a

/-- Every entry name produced by `mkHeaders` is already lowercase. -/
theorem mkHeaders_name_lower {hs : List (String × String)} {p : String × String}
    (hp : p ∈ mkHeaders hs) : strToLower p.1 = p.1 := by
  rcases List.mem_map.mp hp with ⟨q, _, rfl⟩
  exact strToLower_idem q.1

/-- `mkHeaders` fixes a list whose entry names are already lowercase. -/
theorem mkHeaders_eq_self {l : List (String × String)} (h : ∀ p ∈ l, strToLower p.1 = p.1) :
    mkHeaders l = l := by
  unfold mkHeaders
  induction l with
  | nil => rfl
  | cons p rest ih =>
      simp only [List.map_cons]
      have hp : (strToLower p.1, p.2) = p := by
        rw [h p (List.mem_cons_self p rest)]
      rw [hp, ih (fun q hq => h q (List.mem_cons_of_mem p hq))]

/-- On a header list whose names were normalized by `mkHeaders`,
`filterHeaders` is exactly the per-name filter `keepName`. -/
theorem filterHeaders_mkHeaders (hs : List (String × String)) (env : Env) :
    filterHeaders (mkHeaders hs) env = (mkHeaders hs).filter (fun p => keepName env p.1) := by
  unfold filterHeaders keepName
  apply mkHeaders_eq_self
  intro p hp
  exact mkHeaders_name_lower (List.mem_of_mem_filter hp)

/-- A `range` header in the raw client headers survives the filter when no
allow-list is configured. -/
theorem headersHas_filterHeaders_range (hs : List (String × String)) (env : Env)
    (hr : headersHas hs RANGE_NAME = true) (hal : env.ALLOWED_HEADERS = none) :
    headersHas (filterHeaders (mkHeaders hs) env) RANGE_NAME = true := by
  rw [filterHeaders_mkHeaders]
  unfold headersHas at hr ⊢
  rw [List.any_eq_true] at hr ⊢
  obtain ⟨p, hp, hpb⟩ := hr
  have hb : strToLower p.1 = strToLower RANGE_NAME := by
    exact eq_of_beq hpb
  have hlow : strToLower RANGE_NAME = RANGE_NAME := by decide
  refine ⟨(strToLower p.1, p.2), ?_, ?_⟩
  · rw [List.mem_filter]
    constructor
    · exact List.mem_map.mpr ⟨p, hp, rfl⟩
    · rw [hb, hlow]
      simp [keepName, allowedDrops, hal]
      decide
  · rw [strToLower_idem, hb]
    exact beq_self_eq_true (strToLower RANGE_NAME)

/-- The loop performs at least one fetch beyond the `idx` already made. -/
theorem rangeRetryLoop_fetchCount_ge (upstream : Nat → Response) :
    ∀ a idx logs, idx + 1 ≤ (rangeRetryLoop upstream idx a logs).fetchCount := by
  intro a
  induction a with
  | zero => intro idx logs; simp [rangeRetryLoop]
  | succ a ih =>
      intro idx logs
      simp only [rangeRetryLoop]
      split
      · simp
      · split
        · split
          · exact Nat.le_trans (by omega) (ih (idx + 1) _)
          · simp
        · simp

/-- After `setFirst ln v`, the stored values for the (lowercase-stable) name
`ln` are exactly `[v]`. -/
theorem headerValues_setFirst_self (ln v name : String) (hq : strToLower name = ln)
    (hid : strToLower ln = ln) :
    ∀ hs, headerValues (setFirst ln v hs) name = [v] := by
  intro hs
  induction hs with
  | nil =>
      unfold setFirst headerValues
      rw [hq]
      simp [hid]
  | cons p rest ih =>
      unfold setFirst
      by_cases h : strToLower p.1 == ln
      · rw [if_pos h]
        unfold headerValues
        rw [hq]
        simp only [List.filter_cons, hid, beq_self_eq_true, if_true]
        have hnil : List.filter (fun p => strToLower p.1 == ln)
            (List.filter (fun q => !(strToLower q.1 == ln)) rest) = [] := by
          rw [List.filter_eq_nil_iff]
          intro a ha
          have hdrop := (List.mem_filter.mp ha).2
          simp only [Bool.not_eq_true'] at hdrop
          simp [hdrop]
        simp [hnil]
      · rw [if_neg h]
        unfold headerValues at ih ⊢
        rw [hq] at ih ⊢
        simp only [List.filter_cons]
        rw [Bool.not_eq_true] at h
        simp only [h, Bool.false_eq_true, if_false]
        exact ih

/-- `setFirst ln v` does not change the values stored under any other
(case-insensitive) name. -/
theorem headerValues_setFirst_other (ln v name : String) (hne : strToLower name ≠ ln)
    (hid : strToLower ln = ln) :
    ∀ hs, headerValues (setFirst ln v hs) name = headerValues hs name := by
  intro hs
  have hlnb : (ln == strToLower name) = false := by
    rw [beq_eq_false_iff_ne]
    intro hx
    exact hne hx.symm
  induction hs with
  | nil =>
      unfold setFirst headerValues
      rw [← hid] at hlnb
      simp [hlnb]
  | cons p rest ih =>
      unfold setFirst
      by_cases h : strToLower p.1 == ln
      · rw [if_pos h]
        have hp1 : strToLower p.1 = ln := eq_of_beq h
        unfold headerValues
        simp only [List.filter_cons, hp1, hid, hlnb, Bool.false_eq_true, if_false]
        apply congrArg
        rw [List.filter_filter]
        apply List.filter_congr
        intro a _
        by_cases ha : (strToLower a.1 == strToLower name) = true
        · have hb : (strToLower a.1 == ln) = false := by
            rw [beq_eq_false_iff_ne]
            rw [eq_of_beq ha]
            exact hne
          simp [ha, hb]
        · rw [Bool.not_eq_true] at ha
          simp [ha]
      · rw [if_neg h]
        unfold headerValues at ih ⊢
        simp only [List.filter_cons]
        by_cases hp : (strToLower p.1 == strToLower name) = true
        · simp only [hp, if_true, List.map_cons]
          rw [ih]
        · rw [Bool.not_eq_true] at hp
          simp only [hp, Bool.false_eq_true, if_false]
          exact ih

/-- The controller always performs at least one fetch. -/
theorem rangeRetryController_fetchCount_pos (upstream : Nat → Response) :
    1 ≤ (rangeRetryController upstream).fetchCount := by
  have h := rangeRetryLoop_fetchCount_ge upstream RANGE_RETRY_ATTEMPTS 0 []
  simp only [rangeRetryController]
  split
  · simpa using h
  · simpa using h

/-! ### Claim theorems -/

/-- C1: for a request whose signed headers carry `range`, if the upstream
yields three consecutive 2xx responses that all lack `content-range`, the
controller performs exactly 3 fetch attempts, returns the 3rd response as
the final response, and emits exactly one exhaustion diagnostic. -/
theorem rangeRetry_exhausts_after_three_attempts (upstream : Nat → Response)
    (h0 : responseOk (upstream 0) = true)
    (c0 : headersHas ((upstream 0).headers) CONTENT_RANGE = false)
    (h1 : responseOk (upstream 1) = true)
    (c1 : headersHas ((upstream 1).headers) CONTENT_RANGE = false)
    (h2 : responseOk (upstream 2) = true)
    (c2 : headersHas ((upstream 2).headers) CONTENT_RANGE = false) :
    (rangeRetryController upstream).fetchCount = 3 ∧
    (rangeRetryController upstream).finalResponse = upstream 2 ∧
    List.count (LogEvent.exhausted) ((rangeRetryController upstream).logs) = 1 := by
  have hloop : rangeRetryLoop upstream 0 RANGE_RETRY_ATTEMPTS []
      = { finalResponse := upstream 2, attempts := 0, fetchCount := 3,
          logs := [LogEvent.willRetry 2, LogEvent.willRetry 1, LogEvent.willRetry 0] } := by
    show rangeRetryLoop upstream 0 3 [] = _
    rw [rangeRetryLoop]
    simp only [c0, h0, if_false, if_true, Bool.false_eq_true, ite_false, ite_true]
    norm_num
    rw [rangeRetryLoop]
    simp only [c1, h1]
    norm_num
    rw [rangeRetryLoop]
    simp only [c2, h2]
    norm_num
  unfold rangeRetryController
  rw [hloop]
  simp [c2, List.count]

/-- C1 witness: three mocked 200 responses without `content-range`. -/
theorem rangeRetry_exhausts_after_three_attempts_witness :
    (rangeRetryController alwaysFullUpstream).fetchCount = 3 ∧
    (rangeRetryController alwaysFullUpstream).finalResponse = alwaysFullUpstream 2 ∧
    List.count (LogEvent.exhausted) ((rangeRetryController alwaysFullUpstream).logs) = 1 :=
  rangeRetry_exhausts_after_three_attempts alwaysFullUpstream
    (by decide) (by decide) (by decide) (by decide) (by decide) (by decide)

/-- C2: the first upstream response carrying `content-range` is final
regardless of its status, with no further fetch attempts; in particular a
200 without `content-range` followed by a response with it gives exactly 2
attempts and the second response back. -/
theorem contentRange_response_is_final (upstream : Nat → Response) :
    (headersHas ((upstream 0).headers) CONTENT_RANGE = true →
      (rangeRetryController upstream).fetchCount = 1 ∧
      (rangeRetryController upstream).finalResponse = upstream 0) ∧
    (headersHas ((upstream 0).headers) CONTENT_RANGE = false →
      responseOk (upstream 0) = true →
      headersHas ((upstream 1).headers) CONTENT_RANGE = true →
      (rangeRetryController upstream).fetchCount = 2 ∧
      (rangeRetryController upstream).finalResponse = upstream 1) ∧
    (headersHas ((upstream 0).headers) CONTENT_RANGE = false →
      responseOk (upstream 0) = true →
      headersHas ((upstream 1).headers) CONTENT_RANGE = false →
      responseOk (upstream 1) = true →
      headersHas ((upstream 2).headers) CONTENT_RANGE = true →
      (rangeRetryController upstream).fetchCount = 3 ∧
      (rangeRetryController upstream).finalResponse = upstream 2) := by
  refine ⟨?_, ?_, ?_⟩
  · intro hc
    have hloop : rangeRetryLoop upstream 0 RANGE_RETRY_ATTEMPTS []
        = { finalResponse := upstream 0, attempts := 3, fetchCount := 1, logs := [] } := by
      show rangeRetryLoop upstream 0 3 [] = _
      rw [rangeRetryLoop]
      simp [hc, RANGE_RETRY_ATTEMPTS]
    unfold rangeRetryController
    rw [hloop]
    simp
  · intro hc0 hok hc1
    have hloop : rangeRetryLoop upstream 0 RANGE_RETRY_ATTEMPTS []
        = { finalResponse := upstream 1, attempts := 2, fetchCount := 2,
            logs := [LogEvent.willRetry 2, LogEvent.retrySucceeded] } := by
      show rangeRetryLoop upstream 0 3 [] = _
      rw [rangeRetryLoop]
      simp only [hc0, hok]
      norm_num
      rw [rangeRetryLoop]
      simp only [hc1]
      norm_num [RANGE_RETRY_ATTEMPTS]
    unfold rangeRetryController
    rw [hloop]
    simp
  · intro hc0 hok0 hc1 hok1 hc2
    have hloop : rangeRetryLoop upstream 0 RANGE_RETRY_ATTEMPTS []
        = { finalResponse := upstream 2, attempts := 1, fetchCount := 3,
            logs := [LogEvent.willRetry 2, LogEvent.willRetry 1, LogEvent.retrySucceeded] } := by
      show rangeRetryLoop upstream 0 3 [] = _
      rw [rangeRetryLoop]
      simp only [hc0, hok0]
      norm_num
      rw [rangeRetryLoop]
      simp only [hc1, hok1]
      norm_num
      rw [rangeRetryLoop]
      simp only [hc2]
      norm_num [RANGE_RETRY_ATTEMPTS]
    unfold rangeRetryController
    rw [hloop]
    simp

/-- C2 witness: a 206-with-`content-range` first attempt is final after 1
fetch, a 200-then-206 sequence after 2 fetches, and a 200-200-206 sequence
after 3 fetches. -/
theorem contentRange_response_is_final_witness :
    ((rangeRetryController alwaysPartialUpstream).fetchCount = 1 ∧
      (rangeRetryController alwaysPartialUpstream).finalResponse = alwaysPartialUpstream 0) ∧
    ((rangeRetryController secondPartialUpstream).fetchCount = 2 ∧
      (rangeRetryController secondPartialUpstream).finalResponse = secondPartialUpstream 1) ∧
    ((rangeRetryController thirdPartialUpstream).fetchCount = 3 ∧
      (rangeRetryController thirdPartialUpstream).finalResponse = thirdPartialUpstream 2) :=
  ⟨(contentRange_response_is_final alwaysPartialUpstream).1 (by decide),
   (contentRange_response_is_final secondPartialUpstream).2.1 (by decide) (by decide) (by decide),
   (contentRange_response_is_final thirdPartialUpstream).2.2 (by decide) (by decide) (by decide)
     (by decide) (by decide)⟩

/-- C3: on a ranged GET request, a non-2xx upstream response without
`content-range` is never retried, wherever it occurs in the retry sequence:
that attempt is the last, and the response is returned to the client
completely unchanged, with no cache-control injection.  Proved for the
non-2xx response arriving at attempt 1, 2 and 3 — every position reachable
under the retry bound, the earlier attempts being the 2xx-without-
`content-range` responses that alone make the loop continue. -/
theorem non2xx_range_response_not_retried (request : Request) (env : Env)
    (upstream : Nat → Response)
    (hm : request.method = GET_METHOD)
    (hrange : headersHas (request.headers) RANGE_NAME = true)
    (hallow : env.ALLOWED_HEADERS = none)
    (hlist : (isListBucketRequest env (normalizePath (request.pathname))
        && !(envFlagTrue (env.ALLOW_LIST_BUCKET))) = false) :
    (responseOk (upstream 0) = false →
      headersHas ((upstream 0).headers) CONTENT_RANGE = false →
      ((handleFetch request env upstream).fetchCalls).length = 1 ∧
      (handleFetch request env upstream).response = upstream 0) ∧
    (responseOk (upstream 0) = true →
      headersHas ((upstream 0).headers) CONTENT_RANGE = false →
      responseOk (upstream 1) = false →
      headersHas ((upstream 1).headers) CONTENT_RANGE = false →
      ((handleFetch request env upstream).fetchCalls).length = 2 ∧
      (handleFetch request env upstream).response = upstream 1) ∧
    (responseOk (upstream 0) = true →
      headersHas ((upstream 0).headers) CONTENT_RANGE = false →
      responseOk (upstream 1) = true →
      headersHas ((upstream 1).headers) CONTENT_RANGE = false →
      responseOk (upstream 2) = false →
      headersHas ((upstream 2).headers) CONTENT_RANGE = false →
      ((handleFetch request env upstream).fetchCalls).length = 3 ∧
      (handleFetch request env upstream).response = upstream 2) := by
  have hmem : ALLOWED_METHODS.contains (request.method) = true := by
    rw [hm]
    decide
  have hfr := headersHas_filterHeaders_range (request.headers) env hrange hallow
  refine ⟨?_, ?_, ?_⟩
  · intro hok hcr
    have hloop : rangeRetryLoop upstream 0 RANGE_RETRY_ATTEMPTS []
        = { finalResponse := upstream 0, attempts := 3, fetchCount := 1, logs := [] } := by
      show rangeRetryLoop upstream 0 3 [] = _
      rw [rangeRetryLoop]
      simp [hcr, hok]
    unfold handleFetch
    simp only [hmem, hlist, Bool.not_true, Bool.false_eq_true, if_false, ite_false]
    simp only [signRequest, hfr, if_true]
    unfold rangeRetryController
    rw [hloop]
    simp [shapeResponse, hm, GET_METHOD, HEAD_METHOD, addCacheHeaders, hok]
  · intro hok0 hcr0 hok1 hcr1
    have hloop : rangeRetryLoop upstream 0 RANGE_RETRY_ATTEMPTS []
        = { finalResponse := upstream 1, attempts := 2, fetchCount := 2,
            logs := [LogEvent.willRetry 2] } := by
      show rangeRetryLoop upstream 0 3 [] = _
      rw [rangeRetryLoop]
      simp only [hcr0, hok0]
      norm_num
      rw [rangeRetryLoop]
      simp only [hcr1, hok1]
      norm_num
    unfold handleFetch
    simp only [hmem, hlist, Bool.not_true, Bool.false_eq_true, if_false, ite_false]
    simp only [signRequest, hfr, if_true]
    unfold rangeRetryController
    rw [hloop]
    simp [shapeResponse, hm, GET_METHOD, HEAD_METHOD, addCacheHeaders, hok1]
  · intro hok0 hcr0 hok1 hcr1 hok2 hcr2
    have hloop : rangeRetryLoop upstream 0 RANGE_RETRY_ATTEMPTS []
        = { finalResponse := upstream 2, attempts := 1, fetchCount := 3,
            logs := [LogEvent.willRetry 2, LogEvent.willRetry 1] } := by
      show rangeRetryLoop upstream 0 3 [] = _
      rw [rangeRetryLoop]
      simp only [hcr0, hok0]
      norm_num
      rw [rangeRetryLoop]
      simp only [hcr1, hok1]
      norm_num
      rw [rangeRetryLoop]
      simp only [hcr2, hok2]
      norm_num
    unfold handleFetch
    simp only [hmem, hlist, Bool.not_true, Bool.false_eq_true, if_false, ite_false]
    simp only [signRequest, hfr, if_true]
    unfold rangeRetryController
    rw [hloop]
    simp [shapeResponse, hm, GET_METHOD, HEAD_METHOD, addCacheHeaders, hok2]

/-- C3 witness: ranged GETs whose 403 arrives on the first, second and third
attempt (after 200s without `content-range`). -/
theorem non2xx_range_response_not_retried_witness :
    (((handleFetch rangeGetRequest sampleEnv alwaysForbiddenUpstream).fetchCalls).length = 1 ∧
      (handleFetch rangeGetRequest sampleEnv alwaysForbiddenUpstream).response
        = alwaysForbiddenUpstream 0) ∧
    (((handleFetch rangeGetRequest sampleEnv secondForbiddenUpstream).fetchCalls).length = 2 ∧
      (handleFetch rangeGetRequest sampleEnv secondForbiddenUpstream).response
        = secondForbiddenUpstream 1) ∧
    (((handleFetch rangeGetRequest sampleEnv thirdForbiddenUpstream).fetchCalls).length = 3 ∧
      (handleFetch rangeGetRequest sampleEnv thirdForbiddenUpstream).response
        = thirdForbiddenUpstream 2) :=
  ⟨(non2xx_range_response_not_retried rangeGetRequest sampleEnv alwaysForbiddenUpstream
      rfl (by decide) rfl (by decide)).1 (by decide) (by decide),
   (non2xx_range_response_not_retried rangeGetRequest sampleEnv secondForbiddenUpstream
      rfl (by decide) rfl (by decide)).2.1 (by decide) (by decide) (by decide) (by decide),
   (non2xx_range_response_not_retried rangeGetRequest sampleEnv thirdForbiddenUpstream
      rfl (by decide) rfl (by decide)).2.2 (by decide) (by decide) (by decide) (by decide)
      (by decide) (by decide)⟩

/-- C4: on every forwarded request the signer is invoked exactly once, with
the method forced to GET (also for an original HEAD), and every fetch
attempt reuses exactly that signed request. -/
theorem sign_once_forced_get_reused (request : Request) (env : Env)
    (upstream : Nat → Response)
    (hm : ALLOWED_METHODS.contains (request.method) = true)
    (hlist : (isListBucketRequest env (normalizePath (request.pathname))
        && !(envFlagTrue (env.ALLOW_LIST_BUCKET))) = false) :
    ((handleFetch request env upstream).signCalls).length = 1 ∧
    (∀ s ∈ (handleFetch request env upstream).signCalls, s.method = GET_METHOD) ∧
    (∀ f ∈ (handleFetch request env upstream).fetchCalls,
      ∀ s ∈ (handleFetch request env upstream).signCalls, f = s) := by
  unfold handleFetch
  simp only [hm, hlist, Bool.not_true, Bool.false_eq_true, if_false, ite_false]
  by_cases hR : headersHas (filterHeaders (mkHeaders (request.headers)) env) RANGE_NAME = true
  · simp only [signRequest, hR, if_true]
    refine ⟨rfl, ?_, ?_⟩
    · intro s hs
      rw [List.mem_singleton] at hs
      rw [hs]
    · intro f hf s hs
      rw [List.mem_singleton] at hs
      rw [hs]
      exact List.eq_of_mem_replicate hf
  · rw [Bool.not_eq_true] at hR
    simp only [signRequest, hR, Bool.false_eq_true, if_false]
    refine ⟨rfl, ?_, ?_⟩
    · intro s hs
      rw [List.mem_singleton] at hs
      rw [hs]
    · intro f hf s hs
      rw [List.mem_singleton] at hs
      rw [List.mem_singleton] at hf
      rw [hs, hf]

/-- C4 witness: a ranged HEAD request against an upstream that keeps
ignoring the range, so the signed request is reused across retries. -/
theorem sign_once_forced_get_reused_witness :
    ((handleFetch headRequest sampleEnv alwaysFullUpstream).signCalls).length = 1 ∧
    (∀ s ∈ (handleFetch headRequest sampleEnv alwaysFullUpstream).signCalls,
      s.method = GET_METHOD) ∧
    (∀ f ∈ (handleFetch headRequest sampleEnv alwaysFullUpstream).fetchCalls,
      ∀ s ∈ (handleFetch headRequest sampleEnv alwaysFullUpstream).signCalls, f = s) :=
  sign_once_forced_get_reused headRequest sampleEnv alwaysFullUpstream (by decide) (by decide)

/-- C5: the filtered header set contains no unsignable name, no `cf-`-prefixed
name and, under a configured allow-list, only allow-listed names; it is
exactly the per-name filter of the (lowercased) client headers, so all other
headers pass through unaltered; and the decision is case-insensitive in the
header name. -/
theorem filterHeaders_drops_unsignable_cf_and_nonallowed
    (hs : List (String × String)) (env : Env) :
    (∀ p ∈ filterHeaders (mkHeaders hs) env,
        UNSIGNABLE_HEADERS.contains (p.1) = false ∧
        strStartsWith (p.1) CF_DASH = false ∧
        (∀ allowed, env.ALLOWED_HEADERS = some allowed → allowed.contains (p.1) = true)) ∧
    filterHeaders (mkHeaders hs) env = (mkHeaders hs).filter (fun p => keepName env p.1) ∧
    (∀ n₁ n₂ v, strToLower n₁ = strToLower n₂ →
        filterHeaders (mkHeaders [(n₁, v)]) env = filterHeaders (mkHeaders [(n₂, v)]) env) := by
  refine ⟨?_, filterHeaders_mkHeaders hs env, ?_⟩
  · intro p hp
    rw [filterHeaders_mkHeaders] at hp
    have hk := (List.mem_filter.mp hp).2
    unfold keepName at hk
    rw [Bool.not_eq_true'] at hk
    simp only [Bool.or_eq_false_iff] at hk
    refine ⟨hk.1.1, hk.1.2, ?_⟩
    intro allowed hall
    have h2 := hk.2
    rw [hall] at h2
    unfold allowedDrops at h2
    rw [Bool.not_eq_false'] at h2
    exact h2
  · intro n₁ n₂ v h
    have hmk : mkHeaders [(n₁, v)] = mkHeaders [(n₂, v)] := by
      unfold mkHeaders
      simp only [List.map_cons, List.map_nil]
      rw [h]
    rw [hmk]

/-- C5 witness: a concrete header set exercising every filter rule, and the
case-insensitivity of the decision on the `range` name. -/
theorem filterHeaders_drops_unsignable_cf_and_nonallowed_witness :
    filterHeaders (mkHeaders sampleClientHeaders) sampleEnv
      = (mkHeaders sampleClientHeaders).filter (fun p => keepName sampleEnv p.1) ∧
    filterHeaders (mkHeaders [(("RANGE" : String), ("bytes=0-9" : String))]) sampleEnv
      = filterHeaders (mkHeaders [(("Range" : String), ("bytes=0-9" : String))]) sampleEnv :=
  ⟨(filterHeaders_drops_unsignable_cf_and_nonallowed sampleClientHeaders sampleEnv).2.1,
   (filterHeaders_drops_unsignable_cf_and_nonallowed [] sampleEnv).2.2
     "RANGE" "Range" "bytes=0-9" (by decide)⟩

/-- C6: a GET/HEAD request that matches the list-bucket condition while
listing is disabled gets a bodyless 404 and neither signing nor any
upstream fetch happens. -/
theorem listBucket_disabled_yields_404_no_upstream (request : Request) (env : Env)
    (upstream : Nat → Response)
    (hm : ALLOWED_METHODS.contains (request.method) = true)
    (hcond : (env.BUCKET_NAME = PATH_MODE ∧
          (strSplitChar (normalizePath (request.pathname)) SLASH_CHAR).length < 2) ∨
        (env.BUCKET_NAME ≠ PATH_MODE ∧ (normalizePath (request.pathname)).length = 0))
    (hallow : envFlagTrue (env.ALLOW_LIST_BUCKET) = false) :
    (handleFetch request env upstream).response = notFoundResponse ∧
    (handleFetch request env upstream).response.status = 404 ∧
    (handleFetch request env upstream).response.body = none ∧
    (handleFetch request env upstream).signCalls = [] ∧
    (handleFetch request env upstream).fetchCalls = [] := by
  have hlb : isListBucketRequest env (normalizePath (request.pathname)) = true := by
    unfold isListBucketRequest
    rcases hcond with ⟨hb, hseg⟩ | ⟨hb, hlen⟩
    · rw [hb]
      simp [hseg]
    · have hbne : (env.BUCKET_NAME == PATH_MODE) = false := by
        rw [beq_eq_false_iff_ne]
        exact hb
      simp [hbne, hlen]
  unfold handleFetch
  simp only [hm, Bool.not_true, Bool.false_eq_true, if_false, ite_false, hlb, hallow,
    Bool.not_false, Bool.and_true, if_true, ite_true]
  simp [notFoundResponse]

/-- C6 witness: a GET for the bucket root in `$path` mode with listing
disabled. -/
theorem listBucket_disabled_yields_404_no_upstream_witness :
    (handleFetch rootRequest sampleEnv alwaysFullUpstream).response = notFoundResponse ∧
    (handleFetch rootRequest sampleEnv alwaysFullUpstream).response.status = 404 ∧
    (handleFetch rootRequest sampleEnv alwaysFullUpstream).response.body = none ∧
    (handleFetch rootRequest sampleEnv alwaysFullUpstream).signCalls = [] ∧
    (handleFetch rootRequest sampleEnv alwaysFullUpstream).fetchCalls = [] :=
  listBucket_disabled_yields_404_no_upstream rootRequest sampleEnv alwaysFullUpstream
    (by decide) (Or.inl ⟨rfl, by decide⟩) rfl

/-- C7: the HEAD shaping keeps status, status text and headers but drops the
body, and for a GET the upstream body is passed through unchanged. -/
theorem head_response_strips_body_get_preserves_body (r : Response) :
    createHeadResponse r
      = { status := r.status, statusText := r.statusText, headers := r.headers, body := none } ∧
    (shapeResponse HEAD_METHOD r).body = none ∧
    (shapeResponse HEAD_METHOD r).status = r.status ∧
    (shapeResponse HEAD_METHOD r).statusText = r.statusText ∧
    (shapeResponse GET_METHOD r).body = r.body := by
  have hH : shapeResponse HEAD_METHOD r
      = addCacheHeaders (createHeadResponse r) BROWSER_CACHE_TTL_SECONDS := by
    unfold shapeResponse
    rw [if_pos]
    rfl
  have hG : shapeResponse GET_METHOD r = addCacheHeaders r BROWSER_CACHE_TTL_SECONDS := by
    unfold shapeResponse
    rw [if_neg]
    decide
  refine ⟨rfl, ?_, ?_, ?_, ?_⟩
  · rw [hH]
    unfold addCacheHeaders
    split <;> rfl
  · rw [hH]
    unfold addCacheHeaders
    split <;> rfl
  · rw [hH]
    unfold addCacheHeaders
    split <;> rfl
  · rw [hG]
    unfold addCacheHeaders
    split <;> rfl

/-- C8: a 2xx response gets `Cache-Control: public, max-age=2592000`
(overwriting any existing value) with status, status text, body and all
other headers unchanged; a non-2xx response passes through untouched. -/
theorem cacheControl_set_on_success_only (r : Response) :
    (responseOk r = true →
        (addCacheHeaders r BROWSER_CACHE_TTL_SECONDS).status = r.status ∧
        (addCacheHeaders r BROWSER_CACHE_TTL_SECONDS).statusText = r.statusText ∧
        (addCacheHeaders r BROWSER_CACHE_TTL_SECONDS).body = r.body ∧
        headerValues ((addCacheHeaders r BROWSER_CACHE_TTL_SECONDS).headers) CACHE_CONTROL
          = [cacheControlValue BROWSER_CACHE_TTL_SECONDS] ∧
        cacheControlValue BROWSER_CACHE_TTL_SECONDS = "public, max-age=2592000" ∧
        (∀ name, strToLower name ≠ strToLower CACHE_CONTROL →
            headerValues ((addCacheHeaders r BROWSER_CACHE_TTL_SECONDS).headers) name
              = headerValues (r.headers) name)) ∧
    (responseOk r = false → addCacheHeaders r BROWSER_CACHE_TTL_SECONDS = r) := by
  constructor
  · intro hok
    have hred : addCacheHeaders r BROWSER_CACHE_TTL_SECONDS =
        { status := r.status
          statusText := r.statusText
          headers := headersSet (r.headers) CACHE_CONTROL
            (cacheControlValue BROWSER_CACHE_TTL_SECONDS)
          body := r.body } := by
      unfold addCacheHeaders
      rw [hok]
      simp
    rw [hred]
    refine ⟨rfl, rfl, rfl, ?_, by decide, ?_⟩
    · exact headerValues_setFirst_self (strToLower CACHE_CONTROL)
        (cacheControlValue BROWSER_CACHE_TTL_SECONDS) CACHE_CONTROL rfl
        (strToLower_idem CACHE_CONTROL) (r.headers)
    · intro name hne
      exact headerValues_setFirst_other (strToLower CACHE_CONTROL)
        (cacheControlValue BROWSER_CACHE_TTL_SECONDS) name hne
        (strToLower_idem CACHE_CONTROL) (r.headers)
  · intro hok
    unfold addCacheHeaders
    rw [hok]
    simp

/-- C8 witness: a 200 response gets the cache-control value; a 403 response
is returned untouched. -/
theorem cacheControl_set_on_success_only_witness :
    headerValues ((addCacheHeaders fullResponse BROWSER_CACHE_TTL_SECONDS).headers) CACHE_CONTROL
      = [cacheControlValue BROWSER_CACHE_TTL_SECONDS] ∧
    addCacheHeaders forbiddenResponse BROWSER_CACHE_TTL_SECONDS = forbiddenResponse :=
  ⟨((cacheControl_set_on_success_only fullResponse).1 (by decide)).2.2.2.1,
   (cacheControl_set_on_success_only forbiddenResponse).2 (by decide)⟩

/-- C9: a request whose method is neither GET nor HEAD gets a bodyless 405
and neither signing nor any upstream fetch happens. -/
theorem non_get_head_yields_405_no_upstream (request : Request) (env : Env)
    (upstream : Nat → Response)
    (hm1 : request.method ≠ GET_METHOD) (hm2 : request.method ≠ HEAD_METHOD) :
    (handleFetch request env upstream).response.status = 405 ∧
    (handleFetch request env upstream).response.body = none ∧
    (handleFetch request env upstream).signCalls = [] ∧
    (handleFetch request env upstream).fetchCalls = [] := by
  have hmem : ALLOWED_METHODS.contains (request.method) = false := by
    cases hc : ALLOWED_METHODS.contains (request.method) with
    | false => rfl
    | true =>
        exfalso
        have hmm : request.method ∈ ALLOWED_METHODS := by
          rw [List.contains_iff_exists_mem_beq] at hc
          obtain ⟨a, ha, hb⟩ := hc
          rw [eq_of_beq hb]
          exact ha
        rcases List.mem_cons.mp hmm with h | h
        · exact hm1 h
        · rcases List.mem_cons.mp h with h2 | h2
          · exact hm2 h2
          · exact absurd h2 (List.not_mem_nil _)
  unfold handleFetch
  simp only [hmem, Bool.not_false, if_true, ite_true]
  simp [methodNotAllowedResponse]

/-- C9 witness: a POST request is rejected with 405 and no calls. -/
theorem non_get_head_yields_405_no_upstream_witness :
    (handleFetch postRequest sampleEnv alwaysFullUpstream).response.status = 405 ∧
    (handleFetch postRequest sampleEnv alwaysFullUpstream).response.body = none ∧
    (handleFetch postRequest sampleEnv alwaysFullUpstream).signCalls = [] ∧
    (handleFetch postRequest sampleEnv alwaysFullUpstream).fetchCalls = [] :=
  non_get_head_yields_405_no_upstream postRequest sampleEnv alwaysFullUpstream
    (by decide) (by decide)

/-- C10 counterexample: for the concrete request whose normalized path is
exactly `file` (with the rclone rewrite enabled in `$path` mode), the
`file/` rewrite leaves the path unchanged — in particular not empty —
refuting the claim's assertion that the rewritten path of such a request
would be empty: `replace(/^file\//, "")` (line 162) requires the trailing
slash, which `file` lacks. -/
theorem file_word_rewrite_not_empty :
    normalizePath (fileWordRequest.pathname) = FILE_WORD ∧
    stripFileSeg (normalizePath (fileWordRequest.pathname)) = FILE_WORD ∧
    stripFileSeg (normalizePath (fileWordRequest.pathname)) ≠ EMPTY_STRING := by
  decide

/-- C10 (amended): with the rclone rewrite enabled in `$path` mode and
listing disabled, the list-bucket check runs on the normalized path before
the `file/` prefix is stripped: a normalized path of exactly `file` is
rejected with 404 and no upstream call — the rewrite would leave that path
unchanged as `file`, not empty — while a normalized path of `file/` (empty
only after stripping) is not treated as a list-bucket request and is signed
and forwarded upstream with the stripped (empty) path. -/
theorem listBucket_check_precedes_rclone_rewrite (env : Env)
    (hb : env.BUCKET_NAME = PATH_MODE)
    (hrc : envFlagTrue (env.RCLONE_DOWNLOAD) = true)
    (hal : envFlagTrue (env.ALLOW_LIST_BUCKET) = false) :
    (∀ (request : Request) (upstream : Nat → Response), request.method = GET_METHOD →
        normalizePath (request.pathname) = FILE_WORD →
        stripFileSeg (normalizePath (request.pathname)) = FILE_WORD ∧
        (handleFetch request env upstream).response = notFoundResponse ∧
        (handleFetch request env upstream).signCalls = [] ∧
        (handleFetch request env upstream).fetchCalls = []) ∧
    (∀ (request : Request) (upstream : Nat → Response), request.method = GET_METHOD →
        normalizePath (request.pathname) = FILE_SLASH →
        isListBucketRequest env (normalizePath (request.pathname)) = false ∧
        stripFileSeg (normalizePath (request.pathname)) = EMPTY_STRING ∧
        (handleFetch request env upstream).signCalls
          = [signRequest (urlToString (env.B2_ENDPOINT) EMPTY_STRING) GET_METHOD
              (filterHeaders (mkHeaders (request.headers)) env)] ∧
        (handleFetch request env upstream).fetchCalls ≠ []) := by
  constructor
  · intro request upstream hm hpath
    have hmem : ALLOWED_METHODS.contains (request.method) = true := by
      rw [hm]
      decide
    have hlb : isListBucketRequest env (normalizePath (request.pathname)) = true := by
      rw [hpath]
      unfold isListBucketRequest
      rw [hb]
      decide
    have hkeep : stripFileSeg (normalizePath (request.pathname)) = FILE_WORD := by
      rw [hpath]
      decide
    unfold handleFetch
    simp only [hmem, Bool.not_true, Bool.false_eq_true, if_false, ite_false, hlb, hal,
      Bool.not_false, Bool.and_true, if_true, ite_true]
    exact ⟨hkeep, by trivial, by trivial, by trivial⟩
  · intro request upstream hm hpath
    have hmem : ALLOWED_METHODS.contains (request.method) = true := by
      rw [hm]
      decide
    have hlb : isListBucketRequest env (normalizePath (request.pathname)) = false := by
      rw [hpath]
      unfold isListBucketRequest
      rw [hb]
      decide
    have hstrip : stripFileSeg (normalizePath (request.pathname)) = EMPTY_STRING := by
      rw [hpath]
      decide
    have hbb : (env.BUCKET_NAME == PATH_MODE) = true := by
      rw [hb]
      decide
    refine ⟨hlb, hstrip, ?_⟩
    unfold handleFetch
    simp only [hmem, Bool.not_true, Bool.false_eq_true, if_false, ite_false, hlb,
      Bool.false_and, hrc, hbb, if_true, ite_true, hstrip]
    simp only [resolveHostname, hbb, if_true, ite_true]
    by_cases hR : headersHas (filterHeaders (mkHeaders (request.headers)) env) RANGE_NAME = true
    · simp only [signRequest, hR, if_true, ite_true]
      refine ⟨by trivial, ?_⟩
      intro hcontra
      have hlen := congrArg List.length hcontra
      simp only [List.length_replicate, List.length_nil] at hlen
      have hpos := rangeRetryController_fetchCount_pos upstream
      omega
    · rw [Bool.not_eq_true] at hR
      simp only [signRequest, hR, Bool.false_eq_true, if_false, ite_false]
      refine ⟨by trivial, ?_⟩
      intro hcontra
      exact absurd hcontra (by simp)

/-- C10 witness: with rclone enabled, the path `/file` is rejected as a
list-bucket request (its rewrite staying `file`) while `/file//` is
forwarded with an empty path. -/
theorem listBucket_check_precedes_rclone_rewrite_witness :
    (stripFileSeg (normalizePath (fileWordRequest.pathname)) = FILE_WORD ∧
      (handleFetch fileWordRequest rcloneEnv alwaysFullUpstream).response = notFoundResponse ∧
      (handleFetch fileWordRequest rcloneEnv alwaysFullUpstream).signCalls = [] ∧
      (handleFetch fileWordRequest rcloneEnv alwaysFullUpstream).fetchCalls = []) ∧
    (isListBucketRequest rcloneEnv (normalizePath (fileSlashRequest.pathname)) = false ∧
      stripFileSeg (normalizePath (fileSlashRequest.pathname)) = EMPTY_STRING ∧
      (handleFetch fileSlashRequest rcloneEnv alwaysFullUpstream).signCalls
        = [signRequest (urlToString (rcloneEnv.B2_ENDPOINT) EMPTY_STRING) GET_METHOD
            (filterHeaders (mkHeaders (fileSlashRequest.headers)) rcloneEnv)] ∧
      (handleFetch fileSlashRequest rcloneEnv alwaysFullUpstream).fetchCalls ≠ []) :=
  ⟨(listBucket_check_precedes_rclone_rewrite rcloneEnv rfl (by decide) rfl).1
      fileWordRequest alwaysFullUpstream rfl (by decide),
   (listBucket_check_precedes_rclone_rewrite rcloneEnv rfl (by decide) rfl).2
      fileSlashRequest alwaysFullUpstream rfl (by decide)⟩
